import Mathlib

/-!
# Scope guards of `libcalamares/utils/RAII.h`

A shallow embedding of the four guard types of `RAII.h`
(`cqDeleter`, `cBoolSetter`, `cSignalBlocker`, `cPointerSetter`) and the
contracts of their constructors and destructors.

Conventions of the embedding:

* a C++ object pointer `T*` is an `Option Nat`: `none` is `nullptr`,
  `some a` is the address (identity) `a`;
* a C++ reference member (`T*& p`, `bool& m_b`) is the address of the
  variable it is bound to; the variables live in an explicit store;
* a destructor is a function on the store, applied when the scope that
  owns the guard is left;
* a call that leaves the repository (`QObject::deleteLater`) is recorded,
  in call order, in a request log carried by the store.
-/

namespace RAII

/-! ## Stores -/

/-- An object pointer: `none` is `nullptr`. -/
abbrev Ptr := Option Nat

/-- Overwrite the content of one variable of a store, `*a = v`. -/
def write {α : Type} (m : Nat → α) (a : Nat) (v : α) : Nat → α :=
  fun a' => if a' = a then v else m a'

/-- How control leaves a block. -/
inductive Exit where
  | normal
  | earlyReturn
  | exception
  deriving DecidableEq, Repr

/-- Run the statements of a block body one after the other. -/
def runSteps {σ : Type} (steps : List (σ → σ)) (s : σ) : σ :=
  steps.foldl (fun acc f => f acc) s

/-! ## `cqDeleter` -/

/-- The part of the program state `cqDeleter` acts on: the pointer
variables (`T*`, by address) and the log of `deleteLater()` calls that
have been issued to the Qt event loop, oldest first. -/
structure QWorld where
  slots : Nat → Ptr
  deleteLaterLog : List Nat

/-- The call `p->deleteLater()` on the object `x`: the request is queued
with the event loop; nothing else changes. -/
def QWorld.deleteLater (w : QWorld) (x : Nat) : QWorld :=
  { w with deleteLaterLog := w.deleteLaterLog ++ [x] }

/-- `struct cqDeleter { T*& p; bool preserve = false; }`.  The field `p`
is the address of the pointer variable the reference is bound to. -/
structure cqDeleter where
  p : Nat
  preserve : Bool := false

/-- Aggregate initialisation `cqDeleter< T > g{ slot };`: `preserve`
takes its default member initialiser. -/
def cqDeleter.ctor (slot : Nat) : cqDeleter :=
  { p := slot }

/-- The destructor `~cqDeleter()`:
`if ( !preserve ) { if ( p ) { p->deleteLater(); } p = nullptr; }`. -/
def cqDeleter.dtor (g : cqDeleter) (w : QWorld) : QWorld :=
  if !g.preserve then
    let w1 :=
      match w.slots g.p with
      | some x => w.deleteLater x
      | none => w
    { w1 with slots := write w1.slots g.p none }
  else
    w

/-- A block that owns one `cqDeleter` over `slot`.  The body receives the
guard's `preserve` member (the only member it can change: `p` is a
reference) and the store, and says how it leaves the block; the guard is
destroyed on each of the three ways out, and the exit kind is passed on to
the enclosing block. -/
def cqDeleter.scope (slot : Nat) (body : Bool → QWorld → Bool × QWorld × Exit)
    (w : QWorld) : QWorld × Exit :=
  let g := cqDeleter.ctor slot
  match body g.preserve w with
  | (pres, w1, Exit.normal) => (cqDeleter.dtor { g with preserve := pres } w1, Exit.normal)
  | (pres, w1, Exit.earlyReturn) =>
      (cqDeleter.dtor { g with preserve := pres } w1, Exit.earlyReturn)
  | (pres, w1, Exit.exception) =>
      (cqDeleter.dtor { g with preserve := pres } w1, Exit.exception)

/-- A block body given statement by statement.  Each statement acts on
the guard's `preserve` member and the store; the body leaves the block
the way `e` says. -/
def cqDeleter.bodyOf (steps : List (Bool × QWorld → Bool × QWorld)) (e : Exit) :
    Bool → QWorld → Bool × QWorld × Exit :=
  fun b w => ((runSteps steps (b, w)).1, (runSteps steps (b, w)).2, e)

/-- The statement `slot = q;` of a block body: it overwrites the pointer
variable and leaves `preserve` and the request log alone. -/
def cqDeleter.setSlot (slot : Nat) (q : Ptr) : Bool × QWorld → Bool × QWorld :=
  fun s => (s.1, { s.2 with slots := write s.2.slots slot q })

/-- The statement `g.preserve = b;` of a block body. -/
def cqDeleter.setPreserve (b : Bool) : Bool × QWorld → Bool × QWorld :=
  fun s => (b, s.2)

/-- Two nested blocks, each owning a guard over the same slot, left in
reverse order of construction, the bodies not touching the slot:
`{ outer; { inner; inner.preserve = preserveInner; } outer.preserve = preserveOuter; }`.
The result is the store just after the inner guard is destroyed and the
store after the outer one is. -/
def cqDeleter.nested (slot : Nat) (preserveOuter preserveInner : Bool) (w : QWorld) :
    QWorld × QWorld :=
  let outer := cqDeleter.ctor slot
  let inner := cqDeleter.ctor slot
  let afterInner := cqDeleter.dtor { inner with preserve := preserveInner } w
  (afterInner, cqDeleter.dtor { outer with preserve := preserveOuter } afterInner)

/-! ## `cBoolSetter` -/

/-- `template < bool value > struct cBoolSetter { bool& m_b; }`.  The
field `m_b` is the address of the `bool` the reference is bound to. -/
structure cBoolSetter (value : Bool) where
  m_b : Nat

/-- The constructor `cBoolSetter( bool& b ) : m_b( b ) { m_b = value; }`:
binds the reference and stores `value` through it. -/
def cBoolSetter.ctor (value : Bool) (b : Nat) (s : Nat → Bool) :
    cBoolSetter value × (Nat → Bool) :=
  ({ m_b := b }, write s b value)

/-- The destructor `~cBoolSetter() { m_b = !value; }`. -/
def cBoolSetter.dtor {value : Bool} (g : cBoolSetter value) (s : Nat → Bool) : Nat → Bool :=
  write s g.m_b (!value)

/-- The store at the `k`-th point of the lifetime of a toggler over `b`:
after its construction and the first `k` statements of the body. -/
def cBoolSetter.during (value : Bool) (b : Nat) (steps : List ((Nat → Bool) → (Nat → Bool)))
    (k : Nat) (s : Nat → Bool) : Nat → Bool :=
  runSteps (steps.take k) (cBoolSetter.ctor value b s).2

/-- A block that owns one toggler over `b`: construction, the body, then
destruction. -/
def cBoolSetter.scope (value : Bool) (b : Nat) (steps : List ((Nat → Bool) → (Nat → Bool)))
    (s : Nat → Bool) : Nat → Bool :=
  let gs := cBoolSetter.ctor value b s
  gs.1.dtor (runSteps steps gs.2)

/-- Two nested blocks, each owning a toggler of the same direction over
the same flag `b`: `{ outer; f1; { inner; f2; } f3; }`.  The result is the
store just after the inner toggler is destroyed, while the outer one is
still live, and the store after the outer one is destroyed. -/
def cBoolSetter.nested (value : Bool) (b : Nat) (f1 f2 f3 : (Nat → Bool) → (Nat → Bool))
    (s : Nat → Bool) : (Nat → Bool) × (Nat → Bool) :=
  let outer := cBoolSetter.ctor value b s
  let inner := cBoolSetter.ctor value b (f1 outer.2)
  let afterInner := inner.1.dtor (f2 inner.2)
  (afterInner, outer.1.dtor (f3 afterInner))

/-! ## `cSignalBlocker` -/

/-- Modelled from the spec: `QSignalBlocker`, the suppression primitive of
the host framework, which `RAII.h` only names.  The token remembers the
object and the emission state the object had immediately before
construction.  The store maps an object to `true` when emission of its
notifications is suppressed. -/
structure QSignalBlocker where
  m_o : Nat
  m_blocked : Bool

/-- `using cSignalBlocker = QSignalBlocker;` -/
abbrev cSignalBlocker := QSignalBlocker

/-- Modelled from the spec: constructing the token begins suppression for
the wrapped object and records the state that held immediately before. -/
def QSignalBlocker.ctor (o : Nat) (blocked : Nat → Bool) : cSignalBlocker × (Nat → Bool) :=
  ({ m_o := o, m_blocked := blocked o }, write blocked o true)

/-- Modelled from the spec: destroying the token restores the emission
state that existed immediately before construction. -/
def QSignalBlocker.dtor (g : cSignalBlocker) (blocked : Nat → Bool) : Nat → Bool :=
  write blocked g.m_o g.m_blocked

/-- Two nested blocks, each owning a blocker over the same object `o`:
`{ outer; f1; { inner; f2; } f3; }`.  The result is the store just after
the inner blocker is destroyed and the store after the outer one is. -/
def QSignalBlocker.nested (o : Nat) (f1 f2 f3 : (Nat → Bool) → (Nat → Bool))
    (blocked : Nat → Bool) : (Nat → Bool) × (Nat → Bool) :=
  let outer := QSignalBlocker.ctor o blocked
  let inner := QSignalBlocker.ctor o (f1 outer.2)
  let afterInner := inner.1.dtor (f2 inner.2)
  (afterInner, outer.1.dtor (f3 afterInner))

/-! ## `cPointerSetter` -/

/-- The ways an operation of the embedding can fail. -/
inductive Failure where
  | bad_optional_access
  | null_dereference
  | copy_assignment_threw
  deriving DecidableEq, Repr

/-- The memory outside the guard: the content of every `T` variable, by
address, and the addresses that have been stored to, oldest first. -/
structure Mem (T : Type) where
  cells : Nat → T
  written : List Nat

/-- The copy assignment `dst = src` of an element type `T`.  `RAII.h`
takes it from its template argument, so it is a parameter here: from the
content of the destination and the source value it gives the new content
of the destination, or the failure the operator raised. -/
abbrev CopyAssign (T : Type) := T → T → Except Failure T

/-- The copy assignment of a scalar or trivially copyable type: it cannot
raise, and the destination takes the value. -/
def plainCopy {T : Type} : CopyAssign T :=
  fun _ v => Except.ok v

/-- The store `*p = v` at an element type whose copy assignment is
`copyAssign`.  Dereferencing `nullptr` is a failure, and so is an
exception raised by the copy assignment. -/
def Mem.store {T : Type} (copyAssign : CopyAssign T) (m : Mem T) (p : Ptr) (v : T) :
    Except Failure (Mem T) :=
  match p with
  | none => Except.error Failure.null_dereference
  | some a =>
    match copyAssign (m.cells a) v with
    | Except.ok c => Except.ok { cells := write m.cells a c, written := m.written ++ [a] }
    | Except.error e => Except.error e

/-- The accessor `std::optional< T >::value()`, which throws
`std::bad_optional_access` on an empty optional. -/
def optionalValue {T : Type} : Option T → Except Failure T
  | some v => Except.ok v
  | none => Except.error Failure.bad_optional_access

/-- `struct cPointerSetter { std::optional< T > m_value; T* m_pointer; }`. -/
structure cPointerSetter (T : Type) where
  m_value : Option T
  m_pointer : Ptr

/-- The constructor `cPointerSetter( T* p ) : m_pointer(p) {}`; `m_value`
is default-initialised, that is empty. -/
def cPointerSetter.ctor {T : Type} (p : Ptr) : cPointerSetter T :=
  { m_value := none, m_pointer := p }

/-- The destructor
`~cPointerSetter() { if ( m_pointer && m_value.has_value() ) { *m_pointer = m_value.value(); } }`
at an element type whose copy assignment is `copyAssign`.  The destructor
is implicitly `noexcept`: a failure is an exception raised inside it,
which does not leave the destructor but ends the program
(`std::terminate`); in either reading the destructor does not complete. -/
def cPointerSetter.dtorWith {T : Type} (copyAssign : CopyAssign T) (g : cPointerSetter T)
    (m : Mem T) : Except Failure (Mem T) :=
  if g.m_pointer.isSome && g.m_value.isSome then
    match optionalValue g.m_value with
    | Except.ok v => m.store copyAssign g.m_pointer v
    | Except.error e => Except.error e
  else
    Except.ok m

/-- The destructor `~cPointerSetter()` at an element type with the plain,
non-raising copy assignment (`int`, `bool`, pointers, enumerations). -/
def cPointerSetter.dtor {T : Type} (g : cPointerSetter T) (m : Mem T) : Except Failure (Mem T) :=
  cPointerSetter.dtorWith plainCopy g m

/-- The assignment `const T& operator=(const T& v) { m_value = v; return v; }`,
as a function of the guard and the memory outside it: the returned value,
the guard afterwards, the memory afterwards. -/
def cPointerSetter.assign {T : Type} (g : cPointerSetter T) (v : T) (m : Mem T) :
    T × cPointerSetter T × Mem T :=
  (v, { g with m_value := some v }, m)

/-- The assignments `g = v1; ...; g = vn;` in order. -/
def cPointerSetter.assignAll {T : Type} (g : cPointerSetter T) (vs : List T) (m : Mem T) :
    cPointerSetter T × Mem T :=
  vs.foldl (fun gm v => (cPointerSetter.assign gm.1 v gm.2).2) (g, m)

/-- A block that owns one `cPointerSetter` over `p`: construction, the
assignments `vs` in order, then destruction (at the plain copy
assignment). -/
def cPointerSetter.scope {T : Type} (p : Ptr) (vs : List T) (m : Mem T) :
    Except Failure (Mem T) :=
  let gm := cPointerSetter.assignAll (cPointerSetter.ctor p) vs m
  gm.1.dtor gm.2

/-- Two nested blocks, each owning a guard over the same destination,
left in reverse order of construction.  The outer guard receives the
assignments `before` ahead of the inner block and `after` behind it; the
inner guard receives `inner`. -/
def cPointerSetter.nested {T : Type} (p : Ptr) (before inner after : List T) (m : Mem T) :
    Except Failure (Mem T) :=
  let o1 := cPointerSetter.assignAll (cPointerSetter.ctor p) before m
  let i1 := cPointerSetter.assignAll (cPointerSetter.ctor p) inner o1.2
  match i1.1.dtor i1.2 with
  | Except.ok m1 =>
    let o2 := cPointerSetter.assignAll o1.1 after m1
    o2.1.dtor o2.2
  | Except.error e => Except.error e

/-! ## `cBoolSetter` on the memory with failures -/

/-- The constructor `cBoolSetter( bool& b ) : m_b( b ) { m_b = value; }`
on the memory in which a store can fail: the store goes through the
reference, which is bound to the variable at `b`, with the built-in
assignment of `bool`. -/
def cBoolSetter.ctorMem (value : Bool) (b : Nat) (m : Mem Bool) :
    Except Failure (cBoolSetter value × Mem Bool) :=
  match m.store plainCopy (some b) value with
  | Except.ok m1 => Except.ok ({ m_b := b }, m1)
  | Except.error e => Except.error e

/-- The destructor `~cBoolSetter() { m_b = !value; }` on the memory in
which a store can fail. -/
def cBoolSetter.dtorMem {value : Bool} (g : cBoolSetter value) (m : Mem Bool) :
    Except Failure (Mem Bool) :=
  m.store plainCopy (some g.m_b) (!value)

/-! ## Lemmas on stores -/

theorem write_same {α : Type} (m : Nat → α) (a : Nat) (v : α) : write m a v a = v := by
  simp [write]

theorem write_other {α : Type} (m : Nat → α) (a b : Nat) (v : α) (h : b ≠ a) :
    write m a v b = m b := by
  simp [write, h]

theorem runSteps_nil {σ : Type} (s : σ) : runSteps ([] : List (σ → σ)) s = s := rfl

theorem runSteps_cons {σ : Type} (f : σ → σ) (steps : List (σ → σ)) (s : σ) :
    runSteps (f :: steps) s = runSteps steps (f s) := rfl

/-- A body none of whose statements changes the variable `b` leaves `b`
as it found it. -/
theorem runSteps_frame {α : Type} (b : Nat) (steps : List ((Nat → α) → (Nat → α)))
    (hsteps : ∀ f ∈ steps, ∀ s, f s b = s b) (s : Nat → α) :
    runSteps steps s b = s b := by
  induction steps generalizing s with
  | nil => rfl
  | cons f rest ih =>
    rw [runSteps_cons, ih (fun g hg => hsteps g (List.mem_cons_of_mem f hg))]
    exact hsteps f (List.mem_cons_self f rest) s

/-! ## Lemmas on `cPointerSetter` -/

theorem cPointerSetter.assignAll_nil {T : Type} (g : cPointerSetter T) (m : Mem T) :
    cPointerSetter.assignAll g [] m = (g, m) := rfl

theorem cPointerSetter.assignAll_cons {T : Type} (g : cPointerSetter T) (v : T)
    (vs : List T) (m : Mem T) :
    cPointerSetter.assignAll g (v :: vs) m =
      cPointerSetter.assignAll { g with m_value := some v } vs m := rfl

/-- Assignments never touch the memory outside the guard. -/
theorem cPointerSetter.assignAll_mem {T : Type} (g : cPointerSetter T) (vs : List T)
    (m : Mem T) : (cPointerSetter.assignAll g vs m).2 = m := by
  induction vs generalizing g with
  | nil => rfl
  | cons v rest ih => rw [cPointerSetter.assignAll_cons]; exact ih _

/-- Assignments never retarget the guard. -/
theorem cPointerSetter.assignAll_pointer {T : Type} (g : cPointerSetter T) (vs : List T)
    (m : Mem T) : (cPointerSetter.assignAll g vs m).1.m_pointer = g.m_pointer := by
  induction vs generalizing g with
  | nil => rfl
  | cons v rest ih => rw [cPointerSetter.assignAll_cons, ih]

/-- The destructor of a guard with a target and a captured value performs
the one store. -/
theorem cPointerSetter.dtor_some {T : Type} (a : Nat) (v : T) (m : Mem T) :
    cPointerSetter.dtor { m_value := some v, m_pointer := some a } m =
      Except.ok { cells := write m.cells a v, written := m.written ++ [a] } := rfl

/-- The destructor of a guard without a captured value does nothing. -/
theorem cPointerSetter.dtor_empty {T : Type} (p : Ptr) (m : Mem T) :
    cPointerSetter.dtor { m_value := none, m_pointer := p } m = Except.ok m := by
  simp [cPointerSetter.dtor, cPointerSetter.dtorWith]

/-- The destructor of a guard without a target does nothing. -/
theorem cPointerSetter.dtor_null {T : Type} (o : Option T) (m : Mem T) :
    cPointerSetter.dtor { m_value := o, m_pointer := none } m = Except.ok m := by
  simp [cPointerSetter.dtor, cPointerSetter.dtorWith]

/-- C1: a guard constructed over a slot that holds the non-null pointer
`x`, with `preserve` left at its default `false`, leaves on destruction
the slot null, every other slot as it was, and the request log extended
by exactly one `deleteLater` request, which is for `x`. -/
theorem cqDeleter_dtor_nonnull (w : QWorld) (slot x : Nat)
    (h : w.slots slot = some x) :
    ((cqDeleter.ctor slot).dtor w).slots slot = none ∧
    ((cqDeleter.ctor slot).dtor w).deleteLaterLog = w.deleteLaterLog ++ [x] ∧
    ∀ other, other ≠ slot → ((cqDeleter.ctor slot).dtor w).slots other = w.slots other := by
  refine ⟨?_, ?_, ?_⟩
  · simp [cqDeleter.dtor, cqDeleter.ctor, write]
  · simp [cqDeleter.dtor, cqDeleter.ctor, h, QWorld.deleteLater]
  · intro other ho
    simp [cqDeleter.dtor, cqDeleter.ctor, h, QWorld.deleteLater, write, ho]

/-- Witness for C1: slot 0 holds object 7, the log already has a request
for object 3. -/
theorem cqDeleter_dtor_nonnull_witness :
    (⟨fun _ => some 7, [3]⟩ : QWorld).slots 0 = some 7 ∧
    (((cqDeleter.ctor 0).dtor ⟨fun _ => some 7, [3]⟩).slots 0 = none ∧
     ((cqDeleter.ctor 0).dtor ⟨fun _ => some 7, [3]⟩).deleteLaterLog = [3] ++ [7] ∧
     ∀ other, other ≠ 0 →
       ((cqDeleter.ctor 0).dtor ⟨fun _ => some 7, [3]⟩).slots other = some 7) :=
  ⟨rfl, cqDeleter_dtor_nonnull ⟨fun _ => some 7, [3]⟩ 0 7 rfl⟩

/-- C2: a guard whose `preserve` is `true` when it is destroyed leaves
the whole store as it was just before destruction: the slot (null or not)
keeps its pointer and the request log is unchanged. -/
theorem cqDeleter_dtor_preserve (w : QWorld) (g : cqDeleter)
    (h : g.preserve = true) :
    g.dtor w = w ∧ (g.dtor w).slots g.p = w.slots g.p ∧
    (g.dtor w).deleteLaterLog = w.deleteLaterLog := by
  have e : g.dtor w = w := by simp [cqDeleter.dtor, h]
  rw [e]
  exact ⟨rfl, rfl, rfl⟩

/-- Witness for C2: a preserved guard over a slot holding object 7. -/
theorem cqDeleter_dtor_preserve_witness :
    (⟨0, true⟩ : cqDeleter).preserve = true ∧
    ((⟨0, true⟩ : cqDeleter).dtor ⟨fun _ => some 7, [3]⟩ = ⟨fun _ => some 7, [3]⟩ ∧
     ((⟨0, true⟩ : cqDeleter).dtor ⟨fun _ => some 7, [3]⟩).slots 0 = some 7 ∧
     ((⟨0, true⟩ : cqDeleter).dtor ⟨fun _ => some 7, [3]⟩).deleteLaterLog = [3]) :=
  ⟨rfl, cqDeleter_dtor_preserve ⟨fun _ => some 7, [3]⟩ ⟨0, true⟩ rfl⟩

/-! ## `cPointerSetter`: contracts -/

/-- C4: a guard over a non-null destination that is constructed and
destroyed without any assignment ends without failure and leaves the
memory, the destination included, exactly as it was: no cell changes and
no store is performed. -/
theorem cPointerSetter_no_assignment {T : Type} (a : Nat) (m : Mem T) :
    cPointerSetter.scope (some a) ([] : List T) m = Except.ok m ∧
    (cPointerSetter.ctor (some a) : cPointerSetter T).dtor m = Except.ok m := by
  constructor
  · exact cPointerSetter.dtor_empty (some a) m
  · exact cPointerSetter.dtor_empty (some a) m

/-- C9: assigning to a live guard changes only the captured value: the
memory outside the guard (every cell and the record of stores) and the
guard's destination pointer are the same after the assignment as before,
whether the destination is null or not.  Hence over a whole lifetime the
memory is untouched up to the destructor, and the block performs at most
one store, which is the destructor's store to the destination. -/
theorem cPointerSetter_commit_only_at_destruction {T : Type} (g : cPointerSetter T) (v : T)
    (p : Ptr) (vs : List T) (m : Mem T) :
    ((g.assign v m).2.2 = m ∧ (g.assign v m).2.1.m_pointer = g.m_pointer ∧
      (g.assign v m).2.1.m_value = some v) ∧
    (cPointerSetter.assignAll (cPointerSetter.ctor p) vs m).2 = m ∧
    (cPointerSetter.assignAll (cPointerSetter.ctor p) vs m).1.m_pointer = p ∧
    ∃ m1, cPointerSetter.scope p vs m = Except.ok m1 ∧
      (m1.written = m.written ∨ ∃ a, p = some a ∧ m1.written = m.written ++ [a]) ∧
      m1.written.length ≤ m.written.length + 1 := by
  have hp := cPointerSetter.assignAll_pointer (cPointerSetter.ctor p) vs m
  have hm := cPointerSetter.assignAll_mem (cPointerSetter.ctor p) vs m
  refine ⟨⟨rfl, rfl, rfl⟩, hm, hp, ?_⟩
  unfold cPointerSetter.scope
  generalize cPointerSetter.assignAll (cPointerSetter.ctor p) vs m = gm at hp hm
  obtain ⟨⟨val, ptr⟩, m2⟩ := gm
  simp only [cPointerSetter.ctor] at hp hm
  subst hp hm
  cases val with
  | none =>
    exact ⟨m2, cPointerSetter.dtor_empty ptr m2, Or.inl rfl, Nat.le_succ _⟩
  | some u =>
    cases ptr with
    | none => exact ⟨m2, cPointerSetter.dtor_null (some u) m2, Or.inl rfl, Nat.le_succ _⟩
    | some a =>
      exact ⟨_, cPointerSetter.dtor_some a u m2, Or.inr ⟨a, rfl, rfl⟩, by simp⟩

/-! ## `cqDeleter`: exit paths -/

/-- C7: for a guard constructed over a slot holding the non-null object
`X`, and a body that touches neither the slot nor `preserve`, on each way
out of the block (normal end, early return, exception) the slot is null
afterwards and the guard has issued exactly one `deleteLater` request,
for `X`, on top of what the body logged; the exit kind is passed on
unchanged, and the store after the block is the one the same body leaves
when it ends normally. -/
theorem cqDeleter_scope_every_exit (slot X : Nat) (body : Bool → QWorld → Bool × QWorld × Exit)
    (w : QWorld) (h : w.slots slot = some X)
    (hbody : ∀ b w0, (body b w0).1 = b ∧ (body b w0).2.1.slots slot = w0.slots slot) :
    (cqDeleter.scope slot body w).1.slots slot = none ∧
    (cqDeleter.scope slot body w).1.deleteLaterLog =
      (body false w).2.1.deleteLaterLog ++ [X] ∧
    (cqDeleter.scope slot body w).2 = (body false w).2.2 ∧
    (cqDeleter.scope slot body w).1 =
      (cqDeleter.scope slot
        (fun b w0 => ((body b w0).1, (body b w0).2.1, Exit.normal)) w).1 := by
  obtain ⟨hpres, hslot⟩ := hbody false w
  rw [h] at hslot
  unfold cqDeleter.scope
  simp only [cqDeleter.ctor]
  generalize body false w = r at hpres hslot
  obtain ⟨pres, w1, e⟩ := r
  simp only at hpres hslot
  subst hpres
  cases e <;>
    simp [cqDeleter.dtor, hslot, QWorld.deleteLater, write]

/-- Witness for C7: slot 0 holds object 7; the body requests the deferred
destruction of another object, 5, and then throws. -/
theorem cqDeleter_scope_every_exit_witness :
    (⟨fun _ => some 7, [3]⟩ : QWorld).slots 0 = some 7 ∧
    (∀ b w0, ((fun (b : Bool) (w0 : QWorld) => (b, w0.deleteLater 5, Exit.exception)) b w0).1 = b ∧
      ((fun (b : Bool) (w0 : QWorld) => (b, w0.deleteLater 5, Exit.exception)) b w0).2.1.slots 0
        = w0.slots 0) ∧
    (cqDeleter.scope 0 (fun b w0 => (b, w0.deleteLater 5, Exit.exception))
        ⟨fun _ => some 7, [3]⟩).1.slots 0 = none ∧
    (cqDeleter.scope 0 (fun b w0 => (b, w0.deleteLater 5, Exit.exception))
        ⟨fun _ => some 7, [3]⟩).1.deleteLaterLog = [3, 5] ++ [7] ∧
    (cqDeleter.scope 0 (fun b w0 => (b, w0.deleteLater 5, Exit.exception))
        ⟨fun _ => some 7, [3]⟩).2 = Exit.exception ∧
    (cqDeleter.scope 0 (fun b w0 => (b, w0.deleteLater 5, Exit.exception))
        ⟨fun _ => some 7, [3]⟩).1 =
      (cqDeleter.scope 0 (fun b w0 => (b, w0.deleteLater 5, Exit.normal))
        ⟨fun _ => some 7, [3]⟩).1 :=
  ⟨rfl, fun _ _ => ⟨rfl, rfl⟩,
    cqDeleter_scope_every_exit 0 7 (fun b w0 => (b, w0.deleteLater 5, Exit.exception))
      ⟨fun _ => some 7, [3]⟩ rfl (fun _ _ => ⟨rfl, rfl⟩)⟩

/-! ## `cBoolSetter`: contracts -/

/-- C6: for both directions and every initial flag content, the flag
equals `value` immediately after construction and `!value` immediately
after destruction, whatever the body of the block did to the flag (or to
anything else) in between; no other variable is changed by either. -/
theorem cBoolSetter_ctor_dtor (value : Bool) (b : Nat)
    (steps : List ((Nat → Bool) → (Nat → Bool))) (s : Nat → Bool) :
    (cBoolSetter.ctor value b s).1.m_b = b ∧
    (cBoolSetter.ctor value b s).2 b = value ∧
    cBoolSetter.scope value b steps s b = !value ∧
    (∀ other, other ≠ b → (cBoolSetter.ctor value b s).2 other = s other) ∧
    ∀ (g : cBoolSetter value) (s1 : Nat → Bool),
      g.dtor s1 g.m_b = !value ∧ ∀ other, other ≠ g.m_b → g.dtor s1 other = s1 other := by
  refine ⟨rfl, write_same _ _ _, write_same _ _ _, fun other ho => write_other _ _ _ _ ho,
    fun g s1 => ⟨write_same _ _ _, fun other ho => write_other _ _ _ _ ho⟩⟩

/-- C8, as stated, fails: an outer toggler of direction `true` over flag 0
is live while a second toggler of the same direction over the same flag
is constructed and destroyed; at that point of the outer toggler's
lifetime the flag is `false`. -/
theorem cBoolSetter_lifetime_invariant_fails :
    2 ≤ [fun s => (cBoolSetter.ctor true 0 s).2,
          fun s => cBoolSetter.dtor (⟨0⟩ : cBoolSetter true) s].length ∧
    cBoolSetter.during true 0
      [fun s => (cBoolSetter.ctor true 0 s).2,
        fun s => cBoolSetter.dtor (⟨0⟩ : cBoolSetter true) s]
      2 (fun _ => false) 0 ≠ true := by
  constructor
  · decide
  · decide

/-- C8, amended: when no statement of the body writes the flag, the flag
equals `value` at every point between the toggler's construction and its
destruction, and it equals `!value` immediately after the destruction. -/
theorem cBoolSetter_lifetime_invariant (value : Bool) (b : Nat)
    (steps : List ((Nat → Bool) → (Nat → Bool))) (s : Nat → Bool)
    (hsteps : ∀ f ∈ steps, ∀ s0, f s0 b = s0 b) :
    (∀ k, cBoolSetter.during value b steps k s b = value) ∧
    cBoolSetter.scope value b steps s b = !value := by
  refine ⟨fun k => ?_, write_same _ _ _⟩
  unfold cBoolSetter.during
  rw [runSteps_frame b (steps.take k) (fun f hf => hsteps f (List.mem_of_mem_take hf))]
  exact write_same _ _ _

/-- Witness for the amended C8: the body writes another flag, 1. -/
theorem cBoolSetter_lifetime_invariant_witness :
    (∀ f ∈ [fun (s : Nat → Bool) => write s 1 true], ∀ s0, f s0 0 = s0 0) ∧
    (∀ k, cBoolSetter.during true 0 [fun s => write s 1 true] k (fun _ => false) 0 = true) ∧
    cBoolSetter.scope true 0 [fun s => write s 1 true] (fun _ => false) 0 = !true :=
  ⟨by intro f hf s0; simp only [List.mem_singleton] at hf; subst hf; simp [write],
    cBoolSetter_lifetime_invariant true 0 [fun s => write s 1 true] (fun _ => false)
      (by intro f hf s0; simp only [List.mem_singleton] at hf; subst hf; simp [write])⟩

/-! ## `cSignalBlocker`: contracts -/

/-- C10: for every object and every prior emission state, constructing
the blocker suppresses the object and destroying it puts the object back
in the prior state, whatever the body did in between, and neither touches
another object.  For two blockers nested on the same object, where the
statements between the two constructions leave the object's state alone,
the object is still suppressed just after the inner blocker is destroyed
and is back in its original state after the outer one is. -/
theorem cSignalBlocker_round_trip_nesting (o : Nat) (blocked : Nat → Bool)
    (body f1 f2 f3 : (Nat → Bool) → (Nat → Bool)) (h1 : ∀ s, f1 s o = s o) :
    (QSignalBlocker.ctor o blocked).2 o = true ∧
    (QSignalBlocker.ctor o blocked).1.dtor (body (QSignalBlocker.ctor o blocked).2) o
      = blocked o ∧
    (∀ other, other ≠ o →
      (QSignalBlocker.ctor o blocked).1.dtor (QSignalBlocker.ctor o blocked).2 other
        = blocked other) ∧
    (QSignalBlocker.nested o f1 f2 f3 blocked).1 o = true ∧
    (QSignalBlocker.nested o f1 f2 f3 blocked).2 o = blocked o := by
  refine ⟨write_same _ _ _, write_same _ _ _, fun other ho => ?_, ?_, write_same _ _ _⟩
  · simp [QSignalBlocker.dtor, QSignalBlocker.ctor, write, ho]
  · simp [QSignalBlocker.nested, QSignalBlocker.dtor, QSignalBlocker.ctor, write, h1]

/-- Witness for C10: object 2 starts with emission enabled; the bodies
toggle the state of object 2 inside the inner block and after it. -/
theorem cSignalBlocker_round_trip_nesting_witness :
    (∀ s : Nat → Bool, (fun (t : Nat → Bool) => write t 5 true) s 2 = s 2) ∧
    (QSignalBlocker.ctor 2 (fun _ => false)).2 2 = true ∧
    (QSignalBlocker.ctor 2 (fun _ => false)).1.dtor
        ((fun t => write t 2 false) (QSignalBlocker.ctor 2 (fun _ => false)).2) 2
      = false ∧
    (∀ other, other ≠ 2 →
      (QSignalBlocker.ctor 2 (fun _ => false)).1.dtor
        (QSignalBlocker.ctor 2 (fun _ => false)).2 other = false) ∧
    (QSignalBlocker.nested 2 (fun t => write t 5 true) (fun t => write t 2 false)
        (fun t => write t 2 true) (fun _ => false)).1 2 = true ∧
    (QSignalBlocker.nested 2 (fun t => write t 5 true) (fun t => write t 2 false)
        (fun t => write t 2 true) (fun _ => false)).2 2 = false :=
  ⟨fun s => by simp [write],
    cSignalBlocker_round_trip_nesting 2 (fun _ => false) (fun t => write t 2 false)
      (fun t => write t 5 true) (fun t => write t 2 false) (fun t => write t 2 true)
      (fun s => by simp [write])⟩

/-! ## `cqDeleter`: empty slot, destruction-time state, nesting -/

/-- The effect of `~cqDeleter()` in closed form: it is determined by the
slot content and `preserve` at the moment of destruction. -/
theorem cqDeleter.dtor_effect (g : cqDeleter) (w : QWorld) :
    (g.dtor w).slots g.p = (if g.preserve then w.slots g.p else none) ∧
    (g.dtor w).deleteLaterLog =
      w.deleteLaterLog ++ (if g.preserve then [] else (w.slots g.p).toList) ∧
    ∀ other, other ≠ g.p → (g.dtor w).slots other = w.slots other := by
  obtain ⟨slot, pres⟩ := g
  cases pres
  · cases hs : w.slots slot <;>
      simp [cqDeleter.dtor, hs, QWorld.deleteLater, write] <;>
      intro other ho <;> simp [ho]
  · simp [cqDeleter.dtor]

/-- C11: a guard destroyed with `preserve` false while its slot is null
issues no `deleteLater` request and leaves the slot null.  And for every
guard and store, the destructor either issues no request, or issues one
request, which is for the non-null pointer the slot held before the
destructor set it to null. -/
theorem cqDeleter_dtor_empty_slot (g : cqDeleter) (w : QWorld)
    (hp : g.preserve = false) (hnull : w.slots g.p = none) :
    (g.dtor w).deleteLaterLog = w.deleteLaterLog ∧
    (g.dtor w).slots g.p = none ∧
    ∀ (g1 : cqDeleter) (w1 : QWorld),
      (g1.dtor w1).deleteLaterLog = w1.deleteLaterLog ∨
      ∃ x, w1.slots g1.p = some x ∧ (g1.dtor w1).slots g1.p = none ∧
        (g1.dtor w1).deleteLaterLog = w1.deleteLaterLog ++ [x] := by
  refine ⟨?_, ?_, fun g1 w1 => ?_⟩
  · rw [(cqDeleter.dtor_effect g w).2.1, hp, hnull]; simp
  · rw [(cqDeleter.dtor_effect g w).1, hp]; simp
  · obtain ⟨hs, hl, -⟩ := cqDeleter.dtor_effect g1 w1
    cases hpres : g1.preserve with
    | true => left; rw [hl, hpres]; simp
    | false =>
      cases hslot : w1.slots g1.p with
      | none => left; rw [hl, hpres, hslot]; simp
      | some x =>
        right
        refine ⟨x, rfl, ?_, ?_⟩
        · rw [hs, hpres]; simp
        · rw [hl, hpres, hslot]; simp

/-- Witness for C11: a guard over the null slot 0, with one earlier
request in the log. -/
theorem cqDeleter_dtor_empty_slot_witness :
    (cqDeleter.ctor 0).preserve = false ∧
    (⟨fun _ => none, [3]⟩ : QWorld).slots (cqDeleter.ctor 0).p = none ∧
    ((cqDeleter.ctor 0).dtor ⟨fun _ => none, [3]⟩).deleteLaterLog = [3] ∧
    ((cqDeleter.ctor 0).dtor ⟨fun _ => none, [3]⟩).slots (cqDeleter.ctor 0).p = none ∧
    ∀ (g1 : cqDeleter) (w1 : QWorld),
      (g1.dtor w1).deleteLaterLog = w1.deleteLaterLog ∨
      ∃ x, w1.slots g1.p = some x ∧ (g1.dtor w1).slots g1.p = none ∧
        (g1.dtor w1).deleteLaterLog = w1.deleteLaterLog ++ [x] :=
  ⟨rfl, rfl, cqDeleter_dtor_empty_slot (cqDeleter.ctor 0) ⟨fun _ => none, [3]⟩ rfl rfl⟩

/-- C14: the destructor acts on the state at destruction, not at
construction.  Its effect on the slot and on the request log is a function
of the slot content and `preserve` at that moment.  For a guard
constructed over a slot holding `x`, `preserve` false: if the body
replaces `x` by another non-null pointer `y`, the single request issued
is for `y` and none is issued for `x`; if the body sets the slot to null,
no request is issued; if the body sets `preserve` to true and back to
false, the block ends as if `preserve` had never been set, with the slot
null and one request for `x`. -/
theorem cqDeleter_acts_on_destruction_state (slot x y : Nat) (e : Exit) (w : QWorld)
    (hx : w.slots slot = some x) (hxy : y ≠ x) :
    (∀ (g : cqDeleter) (w1 : QWorld),
      (g.dtor w1).slots g.p = (if g.preserve then w1.slots g.p else none) ∧
      (g.dtor w1).deleteLaterLog =
        w1.deleteLaterLog ++ (if g.preserve then [] else (w1.slots g.p).toList)) ∧
    ((cqDeleter.scope slot (cqDeleter.bodyOf [cqDeleter.setSlot slot (some y)] e) w).1.deleteLaterLog
        = w.deleteLaterLog ++ [y] ∧
      List.count x
        (cqDeleter.scope slot (cqDeleter.bodyOf [cqDeleter.setSlot slot (some y)] e) w).1.deleteLaterLog
        = List.count x w.deleteLaterLog ∧
      (cqDeleter.scope slot (cqDeleter.bodyOf [cqDeleter.setSlot slot (some y)] e) w).1.slots slot
        = none) ∧
    ((cqDeleter.scope slot (cqDeleter.bodyOf [cqDeleter.setSlot slot none] e) w).1.deleteLaterLog
        = w.deleteLaterLog ∧
      (cqDeleter.scope slot (cqDeleter.bodyOf [cqDeleter.setSlot slot none] e) w).1.slots slot
        = none) ∧
    (cqDeleter.scope slot
        (cqDeleter.bodyOf [cqDeleter.setPreserve true, cqDeleter.setPreserve false] e) w
      = cqDeleter.scope slot (cqDeleter.bodyOf [] e) w ∧
     (cqDeleter.scope slot
        (cqDeleter.bodyOf [cqDeleter.setPreserve true, cqDeleter.setPreserve false] e) w).1.slots slot
      = none ∧
     (cqDeleter.scope slot
        (cqDeleter.bodyOf [cqDeleter.setPreserve true, cqDeleter.setPreserve false] e) w).1.deleteLaterLog
      = w.deleteLaterLog ++ [x]) := by
  refine ⟨fun g w1 => ⟨(cqDeleter.dtor_effect g w1).1, (cqDeleter.dtor_effect g w1).2.1⟩,
    ?_, ?_, ?_⟩
  · cases e <;>
      simp [cqDeleter.scope, cqDeleter.bodyOf, cqDeleter.setSlot, cqDeleter.ctor, runSteps,
        cqDeleter.dtor, QWorld.deleteLater, write, List.count_singleton, hxy]
  · cases e <;>
      simp [cqDeleter.scope, cqDeleter.bodyOf, cqDeleter.setSlot, cqDeleter.ctor, runSteps,
        cqDeleter.dtor, QWorld.deleteLater, write]
  · cases e <;>
      simp [cqDeleter.scope, cqDeleter.bodyOf, cqDeleter.setPreserve, cqDeleter.ctor, runSteps,
        cqDeleter.dtor, QWorld.deleteLater, write, hx]

/-- C15: two guards nested over the same slot holding the non-null
object `X`, destroyed in reverse order of construction, never request
`X` twice.  Neither preserved: the inner guard issues the one request
and the outer finds the slot null.  Only the inner preserved: the inner
does nothing and the outer issues the one request.  Only the outer
preserved: the inner issues the one request and nulls the slot, and the
slot stays null.  In each case the slot ends null. -/
theorem cqDeleter_nested_single_request (slot X : Nat) (w : QWorld)
    (h : w.slots slot = some X) :
    ((cqDeleter.nested slot false false w).1.deleteLaterLog = w.deleteLaterLog ++ [X] ∧
      (cqDeleter.nested slot false false w).1.slots slot = none ∧
      (cqDeleter.nested slot false false w).2.deleteLaterLog = w.deleteLaterLog ++ [X] ∧
      (cqDeleter.nested slot false false w).2.slots slot = none) ∧
    ((cqDeleter.nested slot false true w).1 = w ∧
      (cqDeleter.nested slot false true w).2.deleteLaterLog = w.deleteLaterLog ++ [X] ∧
      (cqDeleter.nested slot false true w).2.slots slot = none) ∧
    ((cqDeleter.nested slot true false w).1.deleteLaterLog = w.deleteLaterLog ++ [X] ∧
      (cqDeleter.nested slot true false w).1.slots slot = none ∧
      (cqDeleter.nested slot true false w).2.deleteLaterLog = w.deleteLaterLog ++ [X] ∧
      (cqDeleter.nested slot true false w).2.slots slot = none) := by
  refine ⟨?_, ?_, ?_⟩ <;>
    simp [cqDeleter.nested, cqDeleter.ctor, cqDeleter.dtor, QWorld.deleteLater, write, h]

/-- Witness for C14: slot 0 holds object 7, the body leaves by an
exception, the replacement pointer is object 8. -/
theorem cqDeleter_acts_on_destruction_state_witness :
    (⟨fun _ => some 7, [3]⟩ : QWorld).slots 0 = some 7 ∧ (8 : Nat) ≠ 7 ∧
    (cqDeleter.scope 0 (cqDeleter.bodyOf [cqDeleter.setSlot 0 (some 8)] Exit.exception)
        ⟨fun _ => some 7, [3]⟩).1.deleteLaterLog = [3] ++ [8] ∧
    (cqDeleter.scope 0 (cqDeleter.bodyOf [cqDeleter.setSlot 0 none] Exit.exception)
        ⟨fun _ => some 7, [3]⟩).1.deleteLaterLog = [3] ∧
    (cqDeleter.scope 0
        (cqDeleter.bodyOf [cqDeleter.setPreserve true, cqDeleter.setPreserve false]
          Exit.exception)
        ⟨fun _ => some 7, [3]⟩).1.deleteLaterLog = [3] ++ [7] :=
  ⟨rfl, by decide,
    (cqDeleter_acts_on_destruction_state 0 7 8 Exit.exception ⟨fun _ => some 7, [3]⟩ rfl
      (by decide)).2.1.1,
    (cqDeleter_acts_on_destruction_state 0 7 8 Exit.exception ⟨fun _ => some 7, [3]⟩ rfl
      (by decide)).2.2.1.1,
    (cqDeleter_acts_on_destruction_state 0 7 8 Exit.exception ⟨fun _ => some 7, [3]⟩ rfl
      (by decide)).2.2.2.2.2⟩

/-- Witness for C15: slot 0 holds object 7, one earlier request in the
log. -/
theorem cqDeleter_nested_single_request_witness :
    (⟨fun _ => some 7, [3]⟩ : QWorld).slots 0 = some 7 ∧
    (cqDeleter.nested 0 false false ⟨fun _ => some 7, [3]⟩).2.deleteLaterLog = [3] ++ [7] ∧
    (cqDeleter.nested 0 false true ⟨fun _ => some 7, [3]⟩).2.deleteLaterLog = [3] ++ [7] ∧
    (cqDeleter.nested 0 true false ⟨fun _ => some 7, [3]⟩).2.deleteLaterLog = [3] ++ [7] ∧
    (cqDeleter.nested 0 true false ⟨fun _ => some 7, [3]⟩).2.slots 0 = none :=
  ⟨rfl,
    (cqDeleter_nested_single_request 0 7 ⟨fun _ => some 7, [3]⟩ rfl).1.2.2.1,
    (cqDeleter_nested_single_request 0 7 ⟨fun _ => some 7, [3]⟩ rfl).2.1.2.1,
    (cqDeleter_nested_single_request 0 7 ⟨fun _ => some 7, [3]⟩ rfl).2.2.2.2.1,
    (cqDeleter_nested_single_request 0 7 ⟨fun _ => some 7, [3]⟩ rfl).2.2.2.2.2⟩

/-! ## `cBoolSetter`: no restore, nesting -/

/-- C12: the toggler does not restore the prior state.  For every
direction and every initial content of the flag, the flag after
construction, any body, and destruction is `!value`, independently of the
initial content; so the block returns the flag to its prior content
exactly when that content was `!value`, and for prior content `value` it
leaves the flag different from what it was. -/
theorem cBoolSetter_no_restore (value : Bool) (b : Nat)
    (steps : List ((Nat → Bool) → (Nat → Bool))) (s : Nat → Bool) :
    cBoolSetter.scope value b steps s b = !value ∧
    cBoolSetter.scope value b [] s b = !value ∧
    (cBoolSetter.scope value b steps s b = s b ↔ s b = !value) ∧
    (s b = value → cBoolSetter.scope value b steps s b ≠ s b) := by
  have h : cBoolSetter.scope value b steps s b = !value := write_same _ _ _
  refine ⟨h, write_same _ _ _, ?_, ?_⟩
  · rw [h]; exact eq_comm
  · intro hs
    rw [h, hs]
    cases value <;> decide

/-- C17: two togglers of the same direction nested over the same flag.
Immediately after the inner toggler is destroyed the flag equals `!value`
although the outer toggler is still live, whatever the bodies did; and
after the outer toggler is destroyed the flag equals `!value`. -/
theorem cBoolSetter_nested_same_direction (value : Bool) (b : Nat)
    (f1 f2 f3 : (Nat → Bool) → (Nat → Bool)) (s : Nat → Bool) :
    (cBoolSetter.nested value b f1 f2 f3 s).1 b = !value ∧
    (cBoolSetter.nested value b f1 f2 f3 s).2 b = !value ∧
    (cBoolSetter.nested value b f1 f2 f3 s).1 b ≠ value := by
  have h : (cBoolSetter.nested value b f1 f2 f3 s).1 b = !value := write_same _ _ _
  refine ⟨h, write_same _ _ _, ?_⟩
  rw [h]
  cases value <;> decide

/-! ## `cPointerSetter`: no failure, nesting -/

/-- C13, as stated, fails: a guard over cell 1 whose element type has a
copy assignment that raises for the value 9 (one that has to allocate,
say) is assigned 9 and destroyed; the destructor reaches the store and
does not complete. -/
theorem cPointerSetter_dtor_can_fail :
    (cPointerSetter.assignAll (cPointerSetter.ctor (some 1)) [9]
        (⟨fun _ => 0, []⟩ : Mem Nat)).1 = { m_value := some 9, m_pointer := some 1 } ∧
    cPointerSetter.dtorWith
        (fun _ v => if v ≤ 3 then Except.ok v else Except.error Failure.copy_assignment_threw)
        (cPointerSetter.assignAll (cPointerSetter.ctor (some 1)) [9]
          (⟨fun _ => 0, []⟩ : Mem Nat)).1 (⟨fun _ => 0, []⟩ : Mem Nat)
      = Except.error Failure.copy_assignment_threw :=
  ⟨rfl, rfl⟩

/-- C13, amended: for every state of a write-back guard (destination
null or not, value captured or not) the destructor completes without
failure when the copy assignment of the element type does not raise.
For every element type, a failure of the destructor is a failure of that
copy assignment, reached with a non-null destination and a captured
value: the read `m_value.value()` is reached only when a value has been
captured, the store only through a non-null destination, and when the
test `m_pointer && m_value.has_value()` fails the memory is returned as
it is.  The toggler's constructor and destructor, whose stores go through
a bound reference with the built-in assignment of `bool`, complete
without failure for every flag content, with the result of
`cBoolSetter.ctor` and `cBoolSetter.dtor`. -/
theorem guards_fail_only_in_copy_assignment {T : Type} (copyAssign : CopyAssign T)
    (g : cPointerSetter T) (m : Mem T) (value : Bool) (b : Nat) (s : Mem Bool)
    (t : cBoolSetter value)
    (hT : ∀ old v, ∃ c, copyAssign old v = Except.ok c) :
    (∃ m1, g.dtorWith copyAssign m = Except.ok m1) ∧
    (∀ (ca : CopyAssign T) (e : Failure), g.dtorWith ca m = Except.error e →
      ∃ a v, g.m_pointer = some a ∧ g.m_value = some v ∧
        ca (m.cells a) v = Except.error e) ∧
    ((g.m_pointer.isSome && g.m_value.isSome) = true →
      ∃ v a, g.m_value = some v ∧ optionalValue g.m_value = Except.ok v ∧
        g.m_pointer = some a ∧ g.dtorWith copyAssign m = m.store copyAssign (some a) v) ∧
    ((g.m_pointer.isSome && g.m_value.isSome) = false →
      g.dtorWith copyAssign m = Except.ok m) ∧
    (∃ m1, cBoolSetter.ctorMem value b s = Except.ok ({ m_b := b }, m1) ∧
      m1.cells = (cBoolSetter.ctor value b s.cells).2) ∧
    (∃ m1, t.dtorMem s = Except.ok m1 ∧ m1.cells = t.dtor s.cells) := by
  refine ⟨?_, ?_, ?_, ?_, ⟨_, rfl, rfl⟩, ⟨_, rfl, rfl⟩⟩
  · obtain ⟨val, ptr⟩ := g
    cases val with
    | none => exact ⟨m, by simp [cPointerSetter.dtorWith]⟩
    | some v =>
      cases ptr with
      | none => exact ⟨m, by simp [cPointerSetter.dtorWith]⟩
      | some a =>
        obtain ⟨c, hc⟩ := hT (m.cells a) v
        exact ⟨{ cells := write m.cells a c, written := m.written ++ [a] },
          by simp [cPointerSetter.dtorWith, optionalValue, Mem.store, hc]⟩
  · intro ca e he
    obtain ⟨val, ptr⟩ := g
    cases val with
    | none => simp [cPointerSetter.dtorWith] at he
    | some v =>
      cases ptr with
      | none => simp [cPointerSetter.dtorWith] at he
      | some a =>
        refine ⟨a, v, rfl, rfl, ?_⟩
        cases hca : ca (m.cells a) v with
        | ok c => simp [cPointerSetter.dtorWith, optionalValue, Mem.store, hca] at he
        | error e1 =>
          simp [cPointerSetter.dtorWith, optionalValue, Mem.store, hca] at he
          rw [he]
  · intro hc
    obtain ⟨val, ptr⟩ := g
    cases val with
    | none => simp at hc
    | some v =>
      cases ptr with
      | none => simp at hc
      | some a => exact ⟨v, a, rfl, rfl, rfl, rfl⟩
  · intro hc
    simp [cPointerSetter.dtorWith, hc]

/-- Witness for the amended C13: the plain copy assignment of `Nat`, a
guard over cell 1 that has captured 9, a toggler over flag 0. -/
theorem guards_fail_only_in_copy_assignment_witness :
    (∀ old v : Nat, ∃ c, (plainCopy : CopyAssign Nat) old v = Except.ok c) ∧
    (∃ m1, cPointerSetter.dtorWith (plainCopy : CopyAssign Nat)
        { m_value := some 9, m_pointer := some 1 } (⟨fun _ => 0, []⟩ : Mem Nat)
      = Except.ok m1) ∧
    (∃ m1, cBoolSetter.dtorMem (⟨0⟩ : cBoolSetter true) (⟨fun _ => true, []⟩ : Mem Bool)
        = Except.ok m1 ∧
      m1.cells = cBoolSetter.dtor (⟨0⟩ : cBoolSetter true) (fun _ => true)) :=
  ⟨fun _ v => ⟨v, rfl⟩,
    (guards_fail_only_in_copy_assignment plainCopy { m_value := some 9, m_pointer := some 1 }
      ⟨fun _ => 0, []⟩ true 0 ⟨fun _ => true, []⟩ ⟨0⟩ (fun _ v => ⟨v, rfl⟩)).1,
    (guards_fail_only_in_copy_assignment plainCopy { m_value := some 9, m_pointer := some 1 }
      ⟨fun _ => 0, []⟩ true 0 ⟨fun _ => true, []⟩ ⟨0⟩ (fun _ v => ⟨v, rfl⟩)).2.2.2.2.2⟩

end RAII
